import Mathlib

/-!
Shallow embedding of `src/services/EventsService.ts` (the Qminder events
client): the subscription registry, the callback dispatch table, the
connection lifecycle handlers (`openSocket` with its `onopen` / `onclose` /
`onmessage` closures), the public subscription API and `reset`.

Modelling conventions:
* JavaScript functions held in lists/maps are modelled by opaque numeric
  identifiers (`Nat`); invoking one is recorded as an `Effect`.
* Connect/disconnect observers additionally carry `isFunction` (the source
  guards each invocation with `typeof each === 'function'`) and `throws`
  (whether calling the observer raises an exception).
* `this.retryTimeout` / `this.pingInterval` are modelled as the *live* timer
  (`Option Nat` holding the scheduled delay / `Bool`).  Every read of the
  raw field in the source only guards a `clearTimeout`/`clearInterval`
  call, and clearing an absent timer is a no-op, so identifying the field
  with the live timer is observationally equivalent.
* `Math.random`-based `createId()` is factored out: the public API takes the
  freshly generated identifier as an explicit argument.
* A method that `throw`s is modelled by the `error` field of `StepResult`;
  mutations performed before the throw persist, exactly as in JavaScript.
* `console.log` / `console.warn` / `console.error` output is not modelled.
-/

namespace Events

/-- The event categories of `EventType` in the source. -/
inductive EventType
  | TICKET_CREATED | TICKET_CALLED | TICKET_RECALLED | TICKET_CANCELLED
  | TICKET_SERVED | TICKET_CHANGED | OVERVIEW_MONITOR_CHANGE | SIGN_IN_CHANGE
  | LINES_CHANGED | LOCATION_CHANGE
deriving DecidableEq

/-- The `EventFilter` type: `{ line?: number, location?: number }`. -/
structure EventFilter where
  line : Option Int
  location : Option Int
deriving DecidableEq

/-- The `EventSubscription` record kept in the registry.  `parameters`
models the `{ id: number }` object by its single numeric field. -/
structure EventSubscription where
  subscribe : EventType
  id : String
  line : Option Int := none
  location : Option Int := none
  parameters : Option Int := none
deriving DecidableEq

/-- A connect/disconnect observer: an opaque identifier plus whether it is
callable (`typeof each === 'function'`) and whether calling it throws. -/
structure Observer where
  oid : Nat
  isFunction : Bool
  throws : Bool
deriving DecidableEq

/-- A decoded inbound event frame: `{ subscriptionId, data }`. -/
structure Frame where
  subscriptionId : String
  data : String
deriving DecidableEq

/-- Inbound websocket message data.  `text none` is a string that fails
`JSON.parse` (or parses to something without the expected shape);
`text (some fr)` parses to an event frame. -/
inductive MessageData
  | pong
  | binary
  | text (frame : Option Frame)
deriving DecidableEq

/-- An externally observable effect of a method / handler. -/
inductive Effect
  | send (msg : EventSubscription)
  | connectAttempt (url : String)
  | closeTransport
  | invokeCb (cb : Nat) (payload : String)
  | invokeObs (oid : Nat)
deriving DecidableEq

/-- The mutable fields of the `EventsService` singleton.  `hasSocket`
models whether `this.socket` has been assigned. -/
structure EventsState where
  apiKey : String
  apiServer : String
  hasSocket : Bool
  connecting : Bool
  connected : Bool
  retryTimeout : Option Nat
  pingInterval : Bool
  subscriptions : List EventSubscription
  connectionRetries : Nat
  subscriptionCallbackMap : List (String × Nat)
  onConnectCallbacks : List Observer
  onDisconnectCallbacks : List Observer
deriving DecidableEq

/-- Result of running one method or handler: the state afterwards, the
effects emitted, and the exception surfaced to the caller, if any. -/
structure StepResult where
  state : EventsState
  effects : List Effect
  error : Option String
deriving DecidableEq

/-- Lookup in the dispatch table `this.subscriptionCallbackMap`. -/
def mapLookup (m : List (String × Nat)) (k : String) : Option Nat :=
  (m.find? (fun e => e.fst == k)).map (fun e => e.snd)

/-- Assignment `this.subscriptionCallbackMap[key] = cb` (overwrite). -/
def mapBind (m : List (String × Nat)) (k : String) (v : Nat) : List (String × Nat) :=
  if m.any (fun e => e.fst == k) then
    m.map (fun e => if e.fst == k then (k, v) else e)
  else
    m ++ [(k, v)]

/-- The message of the exception thrown by `openSocket` without an API key. -/
def keyErrorMsg : String := "Please set the API key: Qminder.setKey(...);"

/-- `openSocket()` (lines 205-222): fail fast without a key; no-op when
already connecting or connected; otherwise clear any pending retry timer,
create the socket and enter the Connecting state. -/
def openSocket (s : EventsState) : StepResult :=
  if s.apiKey = "" then
    ⟨s, [], some keyErrorMsg⟩
  else if s.connecting || s.connected then
    ⟨s, [], none⟩
  else
    ⟨{ s with connecting := true, retryTimeout := none, hasSocket := true },
      [Effect.connectAttempt (s.apiServer ++ "/events?rest-api-key=" ++ s.apiKey)],
      none⟩

/-- `subscribe(subscription, callback?)` (lines 359-371): register the
record unless its id is already present, bind the callback if given, then
send immediately when connected, open the socket when idle, or just queue
when a connection attempt is in flight. -/
def subscribe (s : EventsState) (sub : EventSubscription) (cb : Option Nat) : StepResult :=
  let s1 := if (s.subscriptions.find? (fun x => x.id == sub.id)).isNone then
      { s with subscriptions := s.subscriptions ++ [sub] }
    else s
  let s2 := match cb with
    | some c =>
        { s1 with subscriptionCallbackMap := mapBind s1.subscriptionCallbackMap sub.id c }
    | none => s1
  if s2.connected then
    ⟨s2, [Effect.send sub], none⟩
  else if !s2.connecting then
    openSocket s2
  else
    ⟨s2, [], none⟩

/-- `this.onConnectCallbacks.forEach(each => (typeof each === 'function') && each())`
(lines 237 and 272).  JavaScript `forEach` does not guard against
exceptions: an observer that throws aborts the iteration.  Returns the
observers actually invoked, in order, and whether an exception escaped. -/
def invokeObservers : List Observer → List Nat × Bool
  | [] => ([], false)
  | o :: rest =>
    if o.isFunction then
      if o.throws then
        ([o.oid], true)
      else
        let r := invokeObservers rest
        (o.oid :: r.1, r.2)
    else
      invokeObservers rest

/-- Replay loop `this.subscriptions.forEach(message => this.subscribe(message))`
(line 231), iterating over the registry snapshot.  (`subscribe` never
registers a record whose id is already present, so the live array seen by
`forEach` coincides with the snapshot.) -/
def replayList : EventsState → List EventSubscription → EventsState × List Effect
  | s, [] => (s, [])
  | s, sub :: rest =>
    let r := subscribe s sub none
    let rest' := replayList r.state rest
    (rest'.1, r.effects ++ rest'.2)

/-- The `socket.onopen` handler (lines 224-239): mark connected, zero the
retry counter, replay every registered subscription, start the ping
interval, then invoke the connect observers. -/
def handleOpen (s : EventsState) : StepResult :=
  let s1 := { s with connected := true, connectionRetries := 0 }
  let rep := replayList s1 s1.subscriptions
  let s3 := { rep.1 with pingInterval := true }
  let obs := invokeObservers s3.onConnectCallbacks
  ⟨s3, rep.2 ++ obs.1.map Effect.invokeObs, none⟩

/-- The `socket.onclose` handler (lines 241-274): leave the
connected/connecting states, cancel the ping interval, and for any close
code other than 1000 schedule a retry after
`min(5000 + 1000*floor(connectionRetries/10), 60000)` ms and increment the
retry counter; finally invoke the disconnect observers. -/
def handleClose (s : EventsState) (code : Nat) : StepResult :=
  let s1 := { s with connected := false, connecting := false, pingInterval := false }
  let s2 := if code ≠ 1000 then
      let timeoutMult := s1.connectionRetries / 10
      let newTimeout := min (5000 + timeoutMult * 1000) 60000
      { s1 with retryTimeout := some newTimeout,
                connectionRetries := s1.connectionRetries + 1 }
    else s1
  let obs := invokeObservers s2.onDisconnectCallbacks
  ⟨s2, obs.1.map Effect.invokeObs, none⟩

/-- The `socket.onmessage` handler (lines 280-297): discard `"PONG"`,
warn-and-drop binary data, swallow parse failures, and dispatch a parsed
frame through the callback map — silently dropping it when no callback is
bound to its `subscriptionId`. -/
def handleMessage (s : EventsState) (raw : MessageData) : StepResult :=
  match raw with
  | MessageData.pong => ⟨s, [], none⟩
  | MessageData.binary => ⟨s, [], none⟩
  | MessageData.text none => ⟨s, [], none⟩
  | MessageData.text (some fr) =>
    match mapLookup s.subscriptionCallbackMap fr.subscriptionId with
    | some cb => ⟨s, [Effect.invokeCb cb fr.data], none⟩
    | none => ⟨s, [], none⟩

/-- The record-building part of `createSubscription` (lines 323-343): a
fresh id and category, the filter's fields copied when defined, and the
parameters object when given. -/
def buildSubscription (newId : String) (eventType : EventType)
    (filter : Option EventFilter) (parameters : Option Int) : EventSubscription :=
  let sub : EventSubscription := { id := newId, subscribe := eventType }
  let sub := match filter with
    | some f =>
      let sub := match f.line with
        | some v => { sub with line := some v }
        | none => sub
      match f.location with
        | some v => { sub with location := some v }
        | none => sub
    | none => sub
  match parameters with
  | some p => { sub with parameters := some p }
  | none => sub

/-- `createSubscription(eventType, callback, filter?, parameters?)`:
build the record and hand it to `subscribe` together with the callback.
`newId` stands for the `this.createId()` call. -/
def createSubscription (s : EventsState) (newId : String) (eventType : EventType)
    (cb : Nat) (filter : Option EventFilter) (parameters : Option Int) : StepResult :=
  subscribe s (buildSubscription newId eventType filter parameters) (some cb)

/-- `onConnect(callback)` (lines 150-156). -/
def onConnect (s : EventsState) (o : Observer) : StepResult :=
  if o.isFunction then
    ⟨{ s with onConnectCallbacks := s.onConnectCallbacks ++ [o] }, [], none⟩
  else
    ⟨s, [], some "Connect callback is not a function."⟩

/-- `onDisconnect(callback)` (lines 172-178). -/
def onDisconnect (s : EventsState) (o : Observer) : StepResult :=
  if o.isFunction then
    ⟨{ s with onDisconnectCallbacks := s.onDisconnectCallbacks ++ [o] }, [], none⟩
  else
    ⟨s, [], some "Disconnect callback is not a function."⟩

/-- `setKey(apiKey)`. -/
def setKey (s : EventsState) (k : String) : EventsState := { s with apiKey := k }

/-- `setServer(apiServer)`. -/
def setServer (s : EventsState) (v : String) : EventsState := { s with apiServer := v }

/-- `onTicketCreated(callback, filter?)` — representative of the six
filter-based wrapper methods, all of which only differ in the category. -/
def onTicketCreated (s : EventsState) (newId : String) (cb : Nat)
    (filter : Option EventFilter) : StepResult :=
  createSubscription s newId EventType.TICKET_CREATED cb filter none

/-- The message of the exception thrown by `onLocationChanged` without a
numeric id. -/
def locationIdErrorMsg : String := "EventsService: onLocationChanged: missing location ID"

/-- `onLocationChanged(callback, id)` (lines 602-607): `id = none` models a
missing or non-numeric argument (`typeof id !== 'number'`). -/
def onLocationChanged (s : EventsState) (newId : String) (cb : Nat)
    (id : Option Int) : StepResult :=
  match id with
  | none => ⟨s, [], some locationIdErrorMsg⟩
  | some i => createSubscription s newId EventType.LOCATION_CHANGE cb none (some i)

/-- `reset()` (lines 614-637): clear the key, restore the default server,
close an open socket, cancel both timers and empty every collection.
(`this.socket.readyState === 1` holds exactly while the connection is
open, which `connected` tracks.) -/
def reset (s : EventsState) : StepResult :=
  ⟨{ apiKey := ""
     apiServer := "wss://api.qminder.com:443"
     hasSocket := s.hasSocket
     connecting := false
     connected := false
     retryTimeout := none
     pingInterval := false
     subscriptions := []
     connectionRetries := 0
     subscriptionCallbackMap := []
     onConnectCallbacks := []
     onDisconnectCallbacks := [] },
   if s.hasSocket && s.connected then [Effect.closeTransport] else [],
   none⟩

/-- The state produced by the constructor (which just calls `reset`). -/
def initState : EventsState :=
  { apiKey := ""
    apiServer := "wss://api.qminder.com:443"
    hasSocket := false
    connecting := false
    connected := false
    retryTimeout := none
    pingInterval := false
    subscriptions := []
    connectionRetries := 0
    subscriptionCallbackMap := []
    onConnectCallbacks := []
    onDisconnectCallbacks := [] }

/-- The external stimuli the service reacts to: public API calls, transport
signals delivered to the socket created by `openSocket`, and the retry
timer firing. -/
inductive Act
  | setKey (k : String)
  | setServer (v : String)
  | openReq
  | sockOpen
  | sockClose (code : Nat)
  | sockMessage (m : MessageData)
  | subCall (newId : String) (et : EventType) (cb : Nat)
      (filter : Option EventFilter) (params : Option Int)
  | onConnectReg (o : Observer)
  | onDisconnectReg (o : Observer)
  | resetCall
  | retryFire
deriving DecidableEq

/-- One step of the service.  `sockOpen` can only be delivered by a socket
whose `onopen` has not yet fired (state Connecting), and `sockClose` only
by a live socket (Connecting or Open): outside those states no handler of
a live socket exists, so the signal is a no-op.  `retryFire` models the
retry timer elapsing: the timer ceases to be pending and the scheduled
`openSocket` call runs. -/
def step (s : EventsState) : Act → StepResult
  | Act.setKey k => ⟨setKey s k, [], none⟩
  | Act.setServer v => ⟨setServer s v, [], none⟩
  | Act.openReq => openSocket s
  | Act.sockOpen => if s.connecting then handleOpen s else ⟨s, [], none⟩
  | Act.sockClose code =>
      if s.connecting || s.connected then handleClose s code else ⟨s, [], none⟩
  | Act.sockMessage m => handleMessage s m
  | Act.subCall newId et cb filter params =>
      createSubscription s newId et cb filter params
  | Act.onConnectReg o => onConnect s o
  | Act.onDisconnectReg o => onDisconnect s o
  | Act.resetCall => reset s
  | Act.retryFire =>
      if s.retryTimeout.isSome then openSocket { s with retryTimeout := none }
      else ⟨s, [], none⟩

/-- Run a sequence of stimuli, threading the state (as in JavaScript, state
mutated before an exception persists, and the caller may continue). -/
def runState (s : EventsState) (acts : List Act) : EventsState :=
  acts.foldl (fun st a => (step st a).state) s

/-- A state is reachable when some stimulus sequence produces it from the
freshly constructed service. -/
def Reachable (s : EventsState) : Prop :=
  ∃ acts : List Act, runState initState acts = s

/-- Project the subscription messages out of an effect list. -/
def sends (effs : List Effect) : List EventSubscription :=
  effs.filterMap (fun e => match e with
    | Effect.send m => some m
    | _ => none)

/-- One public subscribe-style call: the freshly generated identifier plus
the arguments of `createSubscription`. -/
structure CallSpec where
  newId : String
  eventType : EventType
  cb : Nat
  filter : Option EventFilter
  params : Option Int
deriving DecidableEq

/-- The subscription record a call builds. -/
def CallSpec.record (c : CallSpec) : EventSubscription :=
  buildSubscription c.newId c.eventType c.filter c.params

/-- Run a sequence of subscribe-style calls, threading the state. -/
def runCalls (s : EventsState) (cs : List CallSpec) : EventsState :=
  cs.foldl (fun st c =>
    (createSubscription st c.newId c.eventType c.cb c.filter c.params).state) s

/-- After the first abnormal close, each further consecutive abnormal close
is preceded by the pending retry timer firing (which reopens the socket). -/
def closesAfterFirst : Nat → List Act
  | 0 => []
  | k + 1 => [Act.retryFire, Act.sockClose 1006] ++ closesAfterFirst k

/-- A run with `n` consecutive abnormal closes (code 1006) and no
intervening successful open: set the key, open, lose the connection, and
let every scheduled reconnection attempt fail again. -/
def abnormalTrace (n : Nat) : List Act :=
  [Act.setKey "K", Act.openReq, Act.sockClose 1006] ++ closesAfterFirst (n - 1)

/-- The service state reached after `k + 1` consecutive abnormal closes of
`abnormalTrace`. -/
def afterCloses (k : Nat) : EventsState :=
  { apiKey := "K"
    apiServer := "wss://api.qminder.com:443"
    hasSocket := true
    connecting := false
    connected := false
    retryTimeout := some (min (5000 + k / 10 * 1000) 60000)
    pingInterval := false
    subscriptions := []
    connectionRetries := k + 1
    subscriptionCallbackMap := []
    onConnectCallbacks := []
    onDisconnectCallbacks := [] }

/-- Lifecycle invariant: while a connection attempt or connection is live,
no retry timer is pending (`openSocket` cancels it on entry). -/
def RetryInv (s : EventsState) : Prop :=
  (s.connecting = true ∨ s.connected = true) → s.retryTimeout = none

/-- A registered record used by the C8 witness. -/
def regW8 : EventSubscription := { subscribe := EventType.TICKET_CREATED, id := "dup" }

/-- A state whose registry already holds `regW8`, used by the C8 witness. -/
def stateW8 : EventsState := { initState with subscriptions := [regW8] }

/-- A record with a fresh identifier, used by the C8 witness. -/
def freshW8 : EventSubscription := { subscribe := EventType.TICKET_CALLED, id := "new" }

/-- Two subscribe-style calls used by the C3 witness. -/
def callsW3 : List CallSpec :=
  [{ newId := "i1", eventType := EventType.TICKET_CREATED, cb := 1,
     filter := some { line := none, location := some 55 }, params := none },
   { newId := "i2", eventType := EventType.TICKET_CALLED, cb := 2,
     filter := none, params := none }]

/-- The stimuli reaching an open connection, used by the C4 witness. -/
def actsW4 : List Act := [Act.setKey "K", Act.openReq, Act.sockOpen]

end Events

namespace Events

/-! ### Basic facts about the embedded operations -/

theorem find_id_isNone_iff (l : List EventSubscription) (i : String) :
    ((l.find? (fun x => x.id == i)).isNone = true) ↔ i ∉ l.map EventSubscription.id := by
  rw [Option.isNone_iff_eq_none, List.find?_eq_none]
  constructor
  · intro h hmem
    rcases List.mem_map.mp hmem with ⟨x, hx, hid⟩
    exact h x hx (by rw [beq_iff_eq]; exact hid)
  · intro h x hx hbeq
    exact h (List.mem_map.mpr ⟨x, hx, beq_iff_eq.mp hbeq⟩)

theorem openSocket_core (s : EventsState) :
    (openSocket s).state.subscriptions = s.subscriptions ∧
    (openSocket s).state.connected = s.connected ∧
    (openSocket s).state.apiKey = s.apiKey ∧
    (openSocket s).state.connectionRetries = s.connectionRetries ∧
    (openSocket s).state.subscriptionCallbackMap = s.subscriptionCallbackMap := by
  unfold openSocket
  split
  · exact ⟨rfl, rfl, rfl, rfl, rfl⟩
  split
  · exact ⟨rfl, rfl, rfl, rfl, rfl⟩
  · exact ⟨rfl, rfl, rfl, rfl, rfl⟩

theorem subscribe_state_core (s : EventsState) (sub : EventSubscription) (cb : Option Nat) :
    (subscribe s sub cb).state.subscriptions =
      (if sub.id ∈ s.subscriptions.map EventSubscription.id
       then s.subscriptions else s.subscriptions ++ [sub]) ∧
    (subscribe s sub cb).state.connected = s.connected := by
  unfold subscribe
  rcases hf : (s.subscriptions.find? (fun x => x.id == sub.id)).isNone with _ | _
  · have hm : sub.id ∈ s.subscriptions.map EventSubscription.id := by
      by_contra hnm
      rw [← find_id_isNone_iff] at hnm
      rw [hf] at hnm
      exact Bool.false_ne_true hnm
    rw [if_pos hm]
    simp only [hf, Bool.false_eq_true, if_false]
    cases cb <;> dsimp only <;>
      · split
        · exact ⟨rfl, rfl⟩
        split
        · exact ⟨(openSocket_core _).1, (openSocket_core _).2.1⟩
        · exact ⟨rfl, rfl⟩
  · have hm : sub.id ∉ s.subscriptions.map EventSubscription.id :=
      (find_id_isNone_iff s.subscriptions sub.id).mp hf
    rw [if_neg hm]
    simp only [hf, if_true]
    cases cb <;> dsimp only <;>
      · split
        · exact ⟨rfl, rfl⟩
        split
        · exact ⟨(openSocket_core _).1, (openSocket_core _).2.1⟩
        · exact ⟨rfl, rfl⟩

theorem buildSubscription_id (nid : String) (et : EventType)
    (f : Option EventFilter) (p : Option Int) :
    (buildSubscription nid et f p).id = nid := by
  rcases f with _ | ⟨_ | lv, _ | wv⟩ <;> rcases p with _ | pv <;> rfl

theorem buildSubscription_line (nid : String) (et : EventType)
    (f : EventFilter) (p : Option Int) :
    (buildSubscription nid et (some f) p).line = f.line := by
  rcases f with ⟨_ | lv, _ | wv⟩ <;> rcases p with _ | pv <;> rfl

theorem buildSubscription_location (nid : String) (et : EventType)
    (f : EventFilter) (p : Option Int) :
    (buildSubscription nid et (some f) p).location = f.location := by
  rcases f with ⟨_ | lv, _ | wv⟩ <;> rcases p with _ | pv <;> rfl

/-! ### C5: scoping filter fields of a built record -/

/-- C5 counterexample: the claim says a record built by the public API never
contains both a line and a location identifier, but `createSubscription`
copies both fields whenever the filter argument supplies both: a filter
with line 1 and location 2 yields a record carrying both. -/
theorem filter_both_counterexample :
    (buildSubscription "a" EventType.TICKET_CREATED
        (some { line := some 1, location := some 2 }) none).line = some 1 ∧
    (buildSubscription "a" EventType.TICKET_CREATED
        (some { line := some 1, location := some 2 }) none).location = some 2 := by
  decide

/-- C5 (amended): a record built by the public API carries exactly the
scoping fields its filter supplies — `line` equals the filter's line and
`location` equals the filter's location (both absent without a filter) —
so it carries at most one scoping field whenever the filter supplies at
most one, and carries both exactly when the filter supplies both. -/
theorem buildSubscription_filter_fields (nid : String) (et : EventType)
    (f : EventFilter) (p : Option Int) :
    ((buildSubscription nid et (some f) p).line = f.line ∧
     (buildSubscription nid et (some f) p).location = f.location ∧
     (buildSubscription nid et none p).line = none ∧
     (buildSubscription nid et none p).location = none) ∧
    (¬(f.line ≠ none ∧ f.location ≠ none) →
      ¬((buildSubscription nid et (some f) p).line ≠ none ∧
        (buildSubscription nid et (some f) p).location ≠ none)) := by
  have hl := buildSubscription_line nid et f p
  have hw := buildSubscription_location nid et f p
  refine ⟨⟨hl, hw, ?_, ?_⟩, ?_⟩
  · rcases p with _ | pv <;> rfl
  · rcases p with _ | pv <;> rfl
  · intro hno hcon
    exact hno ⟨by rw [← hl]; exact hcon.1, by rw [← hw]; exact hcon.2⟩

/-- Witness for C5's amended theorem at a filter supplying only line 1. -/
theorem buildSubscription_filter_fields_witness :
    ¬((({ line := some 1, location := none } : EventFilter).line ≠ none) ∧
      (({ line := some 1, location := none } : EventFilter).location ≠ none)) ∧
    ¬((buildSubscription "a" EventType.TICKET_CREATED
          (some { line := some 1, location := none }) none).line ≠ none ∧
      (buildSubscription "a" EventType.TICKET_CREATED
          (some { line := some 1, location := none }) none).location ≠ none) :=
  ⟨by decide,
   (buildSubscription_filter_fields "a" EventType.TICKET_CREATED
      { line := some 1, location := none } none).2 (by decide)⟩

/-! ### C6: missing credential fails fast -/

/-- C6: an open request made while the API key is empty raises the
configuration error synchronously, makes no transport attempt, and leaves
the entire state unchanged. -/
theorem openSocket_missing_key (s : EventsState) (h : s.apiKey = "") :
    openSocket s = ⟨s, [], some keyErrorMsg⟩ := by
  unfold openSocket
  rw [if_pos h]

/-- Witness for C6 at the freshly constructed state. -/
theorem openSocket_missing_key_witness :
    openSocket initState = ⟨initState, [], some keyErrorMsg⟩ :=
  openSocket_missing_key initState rfl

/-! ### C7: id-required category rejects a missing or non-numeric id -/

/-- C7: calling `onLocationChanged` with a missing or non-numeric id throws
synchronously, registers no subscription record, and produces zero
transport sends. -/
theorem onLocationChanged_missing_id (s : EventsState) (newId : String) (cb : Nat) :
    onLocationChanged s newId cb none = ⟨s, [], some locationIdErrorMsg⟩ ∧
    (onLocationChanged s newId cb none).state.subscriptions = s.subscriptions ∧
    sends (onLocationChanged s newId cb none).effects = [] :=
  ⟨rfl, rfl, rfl⟩

/-! ### C9: dispatching a frame with an unbound subscriptionId is a no-op -/

/-- C9: an inbound frame whose subscriptionId has no bound callback in the
dispatch table is silently dropped — no exception, no callback invocation,
no state change. -/
theorem dispatch_unknown_id_noop (s : EventsState) (fr : Frame)
    (h : mapLookup s.subscriptionCallbackMap fr.subscriptionId = none) :
    handleMessage s (MessageData.text (some fr)) = ⟨s, [], none⟩ := by
  have hred : handleMessage s (MessageData.text (some fr)) =
      (match mapLookup s.subscriptionCallbackMap fr.subscriptionId with
       | some cb => ⟨s, [Effect.invokeCb cb fr.data], none⟩
       | none => ⟨s, [], none⟩) := rfl
  rw [hred, h]

/-- Witness for C9: a frame for an unknown subscription at the fresh state. -/
theorem dispatch_unknown_id_noop_witness :
    handleMessage initState (MessageData.text (some ⟨"zzz", "payload"⟩))
      = ⟨initState, [], none⟩ :=
  dispatch_unknown_id_noop initState ⟨"zzz", "payload"⟩ rfl

/-! ### C10: reset clears the credential, so subscribing throws -/

/-- C10: `reset()` empties the stored API key and leaves the service
neither connected nor connecting, so any subscribe-style call made before
`setKey` triggers an open that throws the missing-credential configuration
error synchronously to the caller. -/
theorem reset_clears_key (s : EventsState) (newId : String) (et : EventType)
    (cb : Nat) (filter : Option EventFilter) (params : Option Int) :
    (reset s).state.apiKey = "" ∧
    (reset s).state.connected = false ∧
    (reset s).state.connecting = false ∧
    (createSubscription (reset s).state newId et cb filter params).error
      = some keyErrorMsg :=
  ⟨rfl, rfl, rfl, rfl⟩

end Events

namespace Events

/-! ### C2: observer invocation on connect / disconnect -/

theorem invokeObservers_no_throw (l : List Observer)
    (h : ∀ x ∈ l, x.isFunction = true → x.throws = false) :
    invokeObservers l = ((l.filter (fun x => x.isFunction)).map Observer.oid, false) := by
  induction l with
  | nil => rfl
  | cons o rest ih =>
    have ht := h o (List.mem_cons_self o rest)
    have ih' := ih (fun x hx => h x (List.mem_cons_of_mem o hx))
    cases hf : o.isFunction with
    | true =>
      simp [invokeObservers, hf, ht hf, ih', List.filter_cons]
    | false =>
      simp [invokeObservers, hf, ih', List.filter_cons]

/-- C2 counterexample: with the connect-observer list `[observer 0 (which
throws), observer 1]`, the open handler invokes observer 0 but never
invokes observer 1 — JavaScript `forEach` has no per-callback exception
guard (only the `typeof each === 'function'` check), so one throwing
observer does block the others, contradicting the claim. -/
theorem observers_guarded_counterexample :
    (handleOpen { initState with
        onConnectCallbacks := [⟨0, true, true⟩, ⟨1, true, false⟩] }).effects
      = [Effect.invokeObs 0] ∧
    Effect.invokeObs 1 ∉ (handleOpen { initState with
        onConnectCallbacks := [⟨0, true, true⟩, ⟨1, true, false⟩] }).effects := by
  decide

/-- C2 (amended): observer callbacks are invoked in registration order,
each guarded only by a callable check (non-function entries are skipped):
when no function observer throws, every function observer is invoked; when
one throws, the observers before it are still invoked, the thrower itself
runs, and the observers after it are not invoked. -/
theorem invokeObservers_spec (l1 l2 : List Observer) (o : Observer)
    (hquiet : ∀ x ∈ l1, x.isFunction = true → x.throws = false)
    (hof : o.isFunction = true) (hot : o.throws = true) :
    invokeObservers (l1 ++ o :: l2)
      = ((l1.filter (fun x => x.isFunction)).map Observer.oid ++ [o.oid], true) ∧
    (∀ l : List Observer, (∀ x ∈ l, x.isFunction = true → x.throws = false) →
      invokeObservers l = ((l.filter (fun x => x.isFunction)).map Observer.oid, false)) := by
  refine ⟨?_, fun l h => invokeObservers_no_throw l h⟩
  induction l1 with
  | nil =>
    simp [invokeObservers, hof, hot]
  | cons x rest ih =>
    have hx := hquiet x (List.mem_cons_self x rest)
    have ih' := ih (fun y hy => hquiet y (List.mem_cons_of_mem x hy))
    cases hf : x.isFunction with
    | true =>
      simp [invokeObservers, hf, hx hf, ih', List.filter_cons]
    | false =>
      simp [invokeObservers, hf, ih', List.filter_cons]

/-- Witness for C2's amended theorem: observer 5, then the throwing
observer 6, then observer 7 — observers 5 and 6 run, observer 7 does not. -/
theorem invokeObservers_spec_witness :
    invokeObservers ([⟨5, true, false⟩] ++ ⟨6, true, true⟩ :: [⟨7, true, false⟩])
      = ((List.filter (fun x => x.isFunction) [⟨5, true, false⟩]).map Observer.oid
          ++ [6], true) :=
  (invokeObservers_spec [⟨5, true, false⟩] [⟨7, true, false⟩] ⟨6, true, true⟩
    (by decide) rfl rfl).1

end Events

namespace Events

/-! ### Replay of the registry on open -/

theorem subscribe_replay_eq (s : EventsState) (sub : EventSubscription)
    (hc : s.connected = true)
    (hm : sub.id ∈ s.subscriptions.map EventSubscription.id) :
    subscribe s sub none = ⟨s, [Effect.send sub], none⟩ := by
  have hf : (s.subscriptions.find? (fun x => x.id == sub.id)).isNone = false := by
    rcases hfc : (s.subscriptions.find? (fun x => x.id == sub.id)).isNone with _ | _
    · exact hfc
    · exact absurd hm ((find_id_isNone_iff _ _).mp hfc)
  unfold subscribe
  simp only [hf, Bool.false_eq_true, if_false]
  rw [if_pos hc]

theorem replayList_eq (l : List EventSubscription) : ∀ s : EventsState,
    s.connected = true →
    (∀ sub ∈ l, sub.id ∈ s.subscriptions.map EventSubscription.id) →
    replayList s l = (s, l.map Effect.send) := by
  induction l with
  | nil => intro s _ _; rfl
  | cons sub rest ih =>
    intro s hc hmem
    have hsub := subscribe_replay_eq s sub hc (hmem sub (List.mem_cons_self sub rest))
    have hrest := ih s hc (fun x hx => hmem x (List.mem_cons_of_mem sub hx))
    rw [replayList]
    simp only [hsub]
    rw [hrest]
    rfl

theorem handleOpen_eq (s : EventsState) :
    handleOpen s
      = ⟨{ s with connected := true, connectionRetries := 0, pingInterval := true },
         s.subscriptions.map Effect.send
           ++ (invokeObservers s.onConnectCallbacks).1.map Effect.invokeObs,
         none⟩ := by
  have hrep := replayList_eq s.subscriptions
      { s with connected := true, connectionRetries := 0 } rfl
      (fun sub hs => List.mem_map_of_mem EventSubscription.id hs)
  unfold handleOpen
  dsimp only
  rw [hrep]

theorem sends_append (a b : List Effect) : sends (a ++ b) = sends a ++ sends b := by
  simp [sends, List.filterMap_append]

theorem sends_map_send (l : List EventSubscription) : sends (l.map Effect.send) = l := by
  induction l with
  | nil => rfl
  | cons x xs ih =>
    show x :: sends (xs.map Effect.send) = x :: xs
    rw [ih]

theorem sends_map_invokeObs (l : List Nat) : sends (l.map Effect.invokeObs) = [] := by
  induction l with
  | nil => rfl
  | cons x xs ih =>
    show sends (xs.map Effect.invokeObs) = []
    exact ih

/-! ### C8: registration is idempotent by identifier -/

/-- C8: registering a record whose identifier is already in the registry
leaves the registry unchanged; registering a record with a fresh
identifier appends it at the end; hence replaying the registry on open
never grows it. -/
theorem subscribe_idempotent_by_id (s : EventsState) (sub : EventSubscription) (cb : Option Nat) :
    (sub.id ∈ s.subscriptions.map EventSubscription.id →
      (subscribe s sub cb).state.subscriptions = s.subscriptions) ∧
    (sub.id ∉ s.subscriptions.map EventSubscription.id →
      (subscribe s sub cb).state.subscriptions = s.subscriptions ++ [sub]) ∧
    (handleOpen s).state.subscriptions = s.subscriptions := by
  refine ⟨fun hm => ?_, fun hm => ?_, ?_⟩
  · rw [(subscribe_state_core s sub cb).1, if_pos hm]
  · rw [(subscribe_state_core s sub cb).1, if_neg hm]
  · rw [handleOpen_eq]

/-- Witness for C8: re-registering the already-registered record is a
no-op; registering a fresh record appends it. -/
theorem subscribe_idempotent_by_id_witness :
    (subscribe stateW8 regW8 none).state.subscriptions = stateW8.subscriptions ∧
    (subscribe stateW8 freshW8 none).state.subscriptions = stateW8.subscriptions ++ [freshW8] :=
  ⟨(subscribe_idempotent_by_id stateW8 regW8 none).1 (by decide),
   (subscribe_idempotent_by_id stateW8 freshW8 none).2.1 (by decide)⟩

end Events

namespace Events

/-! ### C3: registration order and replay of pre-open subscriptions -/

theorem nodup_shift {α : Type} (A B : List α) (x : α) (h : (A ++ x :: B).Nodup) :
    x ∉ A ∧ ((A ++ [x]) ++ B).Nodup := by
  rw [List.nodup_append] at h
  rcases h with ⟨hA, hxB, hdisj⟩
  refine ⟨fun hxA => hdisj hxA (List.mem_cons_self x B), ?_⟩
  rw [List.append_assoc, List.singleton_append, List.nodup_append]
  exact ⟨hA, hxB, hdisj⟩

theorem createSubscription_disconnected (s : EventsState) (nid : String)
    (et : EventType) (cb : Nat) (f : Option EventFilter) (p : Option Int)
    (hc : s.connected = false)
    (hfresh : nid ∉ s.subscriptions.map EventSubscription.id) :
    (createSubscription s nid et cb f p).state.subscriptions
      = s.subscriptions ++ [buildSubscription nid et f p] ∧
    (createSubscription s nid et cb f p).state.connected = false := by
  have hid : (buildSubscription nid et f p).id = nid := buildSubscription_id nid et f p
  have hcore := subscribe_state_core s (buildSubscription nid et f p) (some cb)
  constructor
  · rw [createSubscription] at *
    rw [hcore.1, hid, if_neg hfresh]
  · rw [createSubscription, hcore.2, hc]

theorem runCalls_cons (s : EventsState) (c : CallSpec) (cs : List CallSpec) :
    runCalls s (c :: cs)
      = runCalls (createSubscription s c.newId c.eventType c.cb c.filter c.params).state cs :=
  rfl

theorem runCalls_subs (cs : List CallSpec) : ∀ s : EventsState,
    s.connected = false →
    (s.subscriptions.map EventSubscription.id ++ cs.map CallSpec.newId).Nodup →
    (runCalls s cs).subscriptions = s.subscriptions ++ cs.map CallSpec.record ∧
    (runCalls s cs).connected = false := by
  induction cs with
  | nil =>
    intro s hc _
    exact ⟨by simp [runCalls], hc⟩
  | cons c rest ih =>
    intro s hc hnd
    rw [List.map_cons] at hnd
    obtain ⟨hfresh, hnd'⟩ :=
      nodup_shift (s.subscriptions.map EventSubscription.id) (rest.map CallSpec.newId)
        c.newId hnd
    have h1 := createSubscription_disconnected s c.newId c.eventType c.cb c.filter
      c.params hc hfresh
    set s' := (createSubscription s c.newId c.eventType c.cb c.filter c.params).state
      with hs'
    have hnd2 : (s'.subscriptions.map EventSubscription.id
        ++ rest.map CallSpec.newId).Nodup := by
      rw [h1.1, List.map_append]
      have hidrec : ([buildSubscription c.newId c.eventType c.filter c.params].map
          EventSubscription.id) = [c.newId] := by
        simp [buildSubscription_id]
      rw [hidrec]
      exact hnd'
    have ih' := ih s' h1.2 hnd2
    rw [runCalls_cons, ih'.1, h1.1, List.append_assoc]
    exact ⟨rfl, ih'.2⟩

/-- C3: for every sequence of subscribe-style calls issued while not
connected (in particular before the first successful open), the transport
open signal replays exactly the registry — the pre-existing records
followed by the records of the calls in call order — and each replayed
message carries the record's original identifier: the identifiers of the
replayed messages are exactly the registered ones, none freshly generated. -/
theorem replay_after_open (s : EventsState) (cs : List CallSpec)
    (hc : s.connected = false)
    (hids : (s.subscriptions.map EventSubscription.id ++ cs.map CallSpec.newId).Nodup) :
    sends (handleOpen (runCalls s cs)).effects
      = s.subscriptions ++ cs.map CallSpec.record ∧
    (sends (handleOpen (runCalls s cs)).effects).map EventSubscription.id
      = s.subscriptions.map EventSubscription.id ++ cs.map CallSpec.newId := by
  have hrun := runCalls_subs cs s hc hids
  have hsend : sends (handleOpen (runCalls s cs)).effects
      = s.subscriptions ++ cs.map CallSpec.record := by
    rw [handleOpen_eq]
    show sends ((runCalls s cs).subscriptions.map Effect.send
      ++ (invokeObservers (runCalls s cs).onConnectCallbacks).1.map Effect.invokeObs) = _
    rw [sends_append, sends_map_send, sends_map_invokeObs, List.append_nil, hrun.1]
  refine ⟨hsend, ?_⟩
  rw [hsend, List.map_append]
  congr 1
  rw [List.map_map]
  apply List.map_congr_left
  intro c _
  exact buildSubscription_id c.newId c.eventType c.filter c.params

/-- Witness for C3: two subscribe calls from the fresh state, then open —
both records are replayed in call order with their original identifiers. -/
theorem replay_after_open_witness :
    sends (handleOpen (runCalls initState callsW3)).effects
      = initState.subscriptions ++ callsW3.map CallSpec.record ∧
    (sends (handleOpen (runCalls initState callsW3)).effects).map EventSubscription.id
      = initState.subscriptions.map EventSubscription.id ++ callsW3.map CallSpec.newId :=
  replay_after_open initState callsW3 rfl (by decide)

end Events

namespace Events

/-! ### C1: the retry backoff across consecutive abnormal closes -/

theorem runState_cons (s : EventsState) (a : Act) (acts : List Act) :
    runState s (a :: acts) = runState (step s a).state acts := rfl

theorem runState_append (s : EventsState) (l1 l2 : List Act) :
    runState s (l1 ++ l2) = runState (runState s l1) l2 := by
  simp [runState, List.foldl_append]

theorem retry_cycle (k : Nat) :
    (step (step (afterCloses k) Act.retryFire).state (Act.sockClose 1006)).state
      = afterCloses (k + 1) := by
  have hK : ¬(("K" : String) = "") := by decide
  simp [step, openSocket, handleClose, afterCloses, invokeObservers, hK]

theorem closes_cycles (n : Nat) : ∀ k : Nat,
    runState (afterCloses k) (closesAfterFirst n) = afterCloses (k + n) := by
  induction n with
  | zero => intro k; rfl
  | succ m ih =>
    intro k
    rw [closesAfterFirst, List.cons_append, List.cons_append, List.nil_append,
      runState_cons, runState_cons, retry_cycle k, ih (k + 1)]
    have harith : k + 1 + m = k + (m + 1) := by omega
    rw [harith]

/-- C1 counterexample: after 10 consecutive abnormal closes (close code
1006) with no intervening successful open, the pending retry delay is
5000 ms — the handler computes the delay from the retry counter *before*
incrementing it — whereas the claim's formula
`min(5000 + 1000*floor(10/10), 60000)` demands 6000 ms. -/
theorem retryDelay_claim_counterexample :
    (runState initState (abnormalTrace 10)).retryTimeout = some 5000 ∧
    min (5000 + 10 / 10 * 1000) 60000 = 6000 ∧
    (runState initState (abnormalTrace 10)).retryTimeout
      ≠ some (min (5000 + 10 / 10 * 1000) 60000) := by
  decide

/-- C1 (amended): after `N = n + 1` consecutive abnormal closes with no
intervening successful open, the retry delay pending before the next
reconnection attempt equals `min(5000 + 1000*floor((N-1)/10), 60000)` ms,
and the retry counter equals N. -/
theorem retryDelay_after_abnormal_closes (n : Nat) :
    (runState initState (abnormalTrace (n + 1))).retryTimeout
      = some (min (5000 + n / 10 * 1000) 60000) ∧
    (runState initState (abnormalTrace (n + 1))).connectionRetries = n + 1 := by
  have hbase : runState initState [Act.setKey "K", Act.openReq, Act.sockClose 1006]
      = afterCloses 0 := by decide
  have htr : runState initState (abnormalTrace (n + 1)) = afterCloses n := by
    rw [abnormalTrace, Nat.add_sub_cancel, runState_append, hbase, closes_cycles n 0,
      Nat.zero_add]
  rw [htr]
  exact ⟨rfl, rfl⟩

/-! ### C4: normal closure schedules no retry -/

theorem openSocket_retryInv (s : EventsState) (h : RetryInv s) :
    RetryInv (openSocket s).state := by
  unfold openSocket
  split
  · exact h
  split
  · exact h
  · exact fun _ => rfl

theorem subscribe_retryInv (s : EventsState) (sub : EventSubscription)
    (cb : Option Nat) (h : RetryInv s) : RetryInv (subscribe s sub cb).state := by
  unfold subscribe
  rcases hfc : (s.subscriptions.find? (fun x => x.id == sub.id)).isNone with _ | _ <;>
    simp only [hfc, Bool.false_eq_true, Bool.true_eq_false, if_false, if_true] <;>
    cases cb <;> dsimp only <;> split <;> (try split) <;>
    first
      | exact fun h' => h h'
      | exact openSocket_retryInv _ (fun h' => h h')

theorem handleClose_retryInv (s : EventsState) (code : Nat) :
    RetryInv (handleClose s code).state := by
  unfold handleClose
  split <;> exact fun h' => by
    rcases h' with h' | h' <;> exact absurd h' Bool.false_ne_true

theorem handleMessage_state (s : EventsState) (m : MessageData) :
    (handleMessage s m).state = s := by
  rcases m with _ | _ | hm
  · rfl
  · rfl
  rcases hm with _ | fr
  · rfl
  have hred : handleMessage s (MessageData.text (some fr)) =
      (match mapLookup s.subscriptionCallbackMap fr.subscriptionId with
       | some cb => ⟨s, [Effect.invokeCb cb fr.data], none⟩
       | none => ⟨s, [], none⟩) := rfl
  rw [hred]
  cases hl : mapLookup s.subscriptionCallbackMap fr.subscriptionId <;> rfl

theorem step_retryInv (s : EventsState) (a : Act) (h : RetryInv s) :
    RetryInv (step s a).state := by
  cases a with
  | setKey k => exact fun h' => h h'
  | setServer v => exact fun h' => h h'
  | openReq => exact openSocket_retryInv s h
  | sockOpen =>
    show RetryInv (if s.connecting = true then handleOpen s else ⟨s, [], none⟩).state
    split
    · rename_i hcg
      rw [handleOpen_eq]
      intro _
      exact h (Or.inl hcg)
    · exact h
  | sockClose code =>
    show RetryInv
      (if (s.connecting || s.connected) = true then handleClose s code
       else ⟨s, [], none⟩).state
    split
    · exact handleClose_retryInv s code
    · exact h
  | sockMessage m =>
    show RetryInv (handleMessage s m).state
    rw [handleMessage_state]
    exact h
  | subCall nid et cb f p => exact subscribe_retryInv s _ (some cb) h
  | onConnectReg o =>
    show RetryInv (onConnect s o).state
    unfold onConnect
    split <;> exact fun h' => h h'
  | onDisconnectReg o =>
    show RetryInv (onDisconnect s o).state
    unfold onDisconnect
    split <;> exact fun h' => h h'
  | resetCall => exact fun _ => rfl
  | retryFire =>
    show RetryInv
      (if (s.retryTimeout).isSome = true then openSocket { s with retryTimeout := none }
       else ⟨s, [], none⟩).state
    split
    · exact openSocket_retryInv _ (fun _ => rfl)
    · exact h

theorem runState_retryInv (acts : List Act) : ∀ s : EventsState,
    RetryInv s → RetryInv (runState s acts) := by
  induction acts with
  | nil => intro s h; exact h
  | cons a rest ih => intro s h; exact ih (step s a).state (step_retryInv s a h)

theorem reachable_retryInv (s : EventsState) (h : Reachable s) : RetryInv s := by
  rcases h with ⟨acts, hacts⟩
  rw [← hacts]
  exact runState_retryInv acts initState (fun _ => rfl)

/-- C4: in every reachable state with a live connection attempt or
connection, a close event with status 1000 settles the service at Idle:
not connected, not connecting, no pending retry timer, no ping timer, and
the retry counter is not incremented. -/
theorem normalClose_settles_idle (s : EventsState) (hr : Reachable s)
    (hlive : s.connecting = true ∨ s.connected = true) :
    (step s (Act.sockClose 1000)).state.connected = false ∧
    (step s (Act.sockClose 1000)).state.connecting = false ∧
    (step s (Act.sockClose 1000)).state.retryTimeout = none ∧
    (step s (Act.sockClose 1000)).state.pingInterval = false ∧
    (step s (Act.sockClose 1000)).state.connectionRetries = s.connectionRetries := by
  have hguard : (s.connecting || s.connected) = true := by
    rcases hlive with h | h <;> simp [h]
  have hstep : step s (Act.sockClose 1000) = handleClose s 1000 := by
    show (if (s.connecting || s.connected) = true then handleClose s 1000
      else ⟨s, [], none⟩) = _
    rw [if_pos hguard]
  have hcl : handleClose s 1000
      = ⟨{ s with connected := false, connecting := false, pingInterval := false },
         (invokeObservers s.onDisconnectCallbacks).1.map Effect.invokeObs, none⟩ := by
    unfold handleClose
    simp
  rw [hstep, hcl]
  refine ⟨rfl, rfl, ?_, rfl, rfl⟩
  exact reachable_retryInv s hr hlive

/-- Witness for C4 at a concrete reachable open state. -/
theorem normalClose_settles_idle_witness :
    (step (runState initState actsW4) (Act.sockClose 1000)).state.connected = false ∧
    (step (runState initState actsW4) (Act.sockClose 1000)).state.connecting = false ∧
    (step (runState initState actsW4) (Act.sockClose 1000)).state.retryTimeout = none ∧
    (step (runState initState actsW4) (Act.sockClose 1000)).state.pingInterval = false ∧
    (step (runState initState actsW4) (Act.sockClose 1000)).state.connectionRetries
      = (runState initState actsW4).connectionRetries :=
  normalClose_settles_idle (runState initState actsW4) ⟨actsW4, rfl⟩ (Or.inr (by decide))

end Events
